import Mathlib

/-!
Shallow embedding of the Y-Note/MTN payment service
(src/services/ynote.service.ts, src/routes/webhook.routes.ts,
src/routes/payment.routes.ts) and proofs about it.

Conventions of the embedding:
* JavaScript strings that may be absent become `Option String`; JS
  truthiness (`undefined` and `""` are falsy) is `jsTruthy`, and the JS
  `a || b` idiom on such values is `jsOr` / `jsOrStr`.
* The JS string primitives used by the source (`replace(/\D/g, "")`,
  `startsWith`, `substring`, `includes`, concatenation) are modelled on
  the character list of the string.
* Firestore collections become association lists from document id to
  document; `getDoc`/`setDoc` are lookup and upsert.  `update` calls in
  the source read the document and write it back with the listed fields
  changed, which coincides with Firestore merge semantics here because
  every update site has fetched the document.
* `admin.firestore.Timestamp.now()` becomes an explicit `now : Nat`
  argument.
* External I/O (the gateway HTTP answers, the generated uuid) becomes
  explicit arguments; OAuth token acquisition and credential validation
  are configuration concerns that perform no store writes and are
  modelled as succeeding.
* A stateful operation returns `Store × Except String α`: the returned
  store is the store at the moment of return or throw.  In the source,
  every `throw` of these functions happens before the function's first
  write, except the campaign update of the FAILED callback branch,
  whose partial write is modelled explicitly.
-/

namespace Paynote

/-- JS truthiness of an optional string: `undefined` and `""` are falsy. -/
def jsTruthy : Option String → Bool
  | none => false
  | some s => s ≠ ""

/-- JS `a || b` for optional strings: `b` when `a` is falsy. -/
def jsOr (a b : Option String) : Option String :=
  match a with
  | none => b
  | some s => if s = "" then b else some s

/-- JS `a || b` where `b` is a plain (always present) string. -/
def jsOrStr (a : Option String) (b : String) : String :=
  match a with
  | none => b
  | some s => if s = "" then b else s

/-- Models `s.startsWith(p)` of JS. -/
def strStartsWith (s p : String) : Bool :=
  p.data.isPrefixOf s.data

/-- Models `s.substring(n)` of JS: the string without its first `n`
characters. -/
def strDropChars (s : String) (n : Nat) : String :=
  String.mk (s.data.drop n)

/-- Models `s.substring(0, n)` of JS: the first `n` characters. -/
def strTakeChars (s : String) (n : Nat) : String :=
  String.mk (s.data.take n)

/-- Models JS string concatenation. -/
def strConcat (a b : String) : String :=
  String.mk (a.data ++ b.data)

/-- Models `s.includes(sub)` of JS. -/
def strIncludes (s sub : String) : Bool :=
  decide (sub.data <:+: s.data)

/-- Models `s.length` of JS (character count). -/
def strLen (s : String) : Nat :=
  s.data.length

@[simp] theorem jsTruthy_none : jsTruthy none = false := rfl

@[simp] theorem jsTruthy_some (s : String) : jsTruthy (some s) = decide (s ≠ "") := by
  simp [jsTruthy]

@[simp] theorem jsOr_none (b : Option String) : jsOr none b = b := rfl

@[simp] theorem jsOrStr_none (b : String) : jsOrStr none b = b := rfl

theorem strStartsWith_mk (l : List Char) (p : String) :
    strStartsWith (String.mk l) p = true ↔ p.data <+: l := by
  simp [strStartsWith]

/-- `PaymentStatus` from payment.types.ts. -/
inductive PaymentStatus
  | PENDING
  | SUCCESSFUL
  | FAILED
deriving DecidableEq

/-- The wire form of a normalized payment status. -/
def PaymentStatus.toText : PaymentStatus → String
  | .PENDING => "PENDING"
  | .SUCCESSFUL => "SUCCESSFUL"
  | .FAILED => "FAILED"

/-- `CampaignStatus` from payment.types.ts. -/
inductive CampaignStatus
  | draft
  | pending_validation
  | pending_payment
  | scheduled
  | active
  | paused
  | completed
  | rejected
deriving DecidableEq

/-- A vendor status response, with the fields read by
`normalizeYnoteStatus`. `amount` stands for the vendor amount string
already parsed by `parseInt`. -/
structure YnoteResponse where
  status : Option String
  transactionStatus : Option String
  amount : Option Nat
  transactionId : Option String
  financialTransactionId : Option String
  externalId : Option String
  reason : Option String
  message : Option String
  errorMessage : Option String
deriving DecidableEq

/-- `NormalizedYnoteStatus` from payment.types.ts. -/
structure NormalizedYnoteStatus where
  status : PaymentStatus
  amount : Option Nat
  transactionId : Option String
  reason : Option String
deriving DecidableEq

/-- Line 332: `ynoteResponse.status || ynoteResponse.transactionStatus || "PENDING"`. -/
def statusField (r : YnoteResponse) : String :=
  jsOrStr (jsOr r.status r.transactionStatus) "PENDING"

/-- Lines 335-341: the status-string to three-state mapping. -/
def mapYnoteStatus (status : String) : PaymentStatus :=
  if status = "SUCCESSFUL" ∨ status = "SUCCESS" ∨ status = "COMPLETED" then
    PaymentStatus.SUCCESSFUL
  else if status = "FAILED" ∨ status = "REJECTED" ∨ status = "CANCELLED"
      ∨ status = "EXPIRED" then
    PaymentStatus.FAILED
  else
    PaymentStatus.PENDING

/-- `normalizeYnoteStatus` (ynote.service.ts lines 330-349). -/
def normalizeYnoteStatus (r : YnoteResponse) : NormalizedYnoteStatus :=
  { status := mapYnoteStatus (statusField r)
    amount := r.amount
    transactionId := jsOr (jsOr r.transactionId r.financialTransactionId) r.externalId
    reason := jsOr (jsOr r.reason r.message) r.errorMessage }

/-- `phone.replace(/\D/g, "")`: keep only the decimal digits. -/
def stripNonDigits (s : String) : String :=
  String.mk (s.data.filter fun c => c.isDigit)

/-- `formatPhoneNumber` (ynote.service.ts lines 136-151). -/
def formatPhoneNumber (phone : String) : String :=
  let cleaned := stripNonDigits phone
  let cleaned := if strStartsWith cleaned "0" then strDropChars cleaned 1 else cleaned
  if strStartsWith cleaned "237" then cleaned else strConcat "237" cleaned

/-- The `{ isValid, error? }` result of phone validation. -/
structure PhoneValidation where
  isValid : Bool
  error : Option String
deriving DecidableEq

/-- Lines 164-173: the number that the MTN carrier check is run on —
the cleaned digits without a leading `237` country code and then
without a leading `0`. -/
def mtnCheckNumber (cleaned : String) : String :=
  let numberToCheck := if strStartsWith cleaned "237" then strDropChars cleaned 3 else cleaned
  if strStartsWith numberToCheck "0" then strDropChars numberToCheck 1 else numberToCheck

/-- `validateMtnPhoneNumber` (ynote.service.ts lines 156-184). -/
def validateMtnPhoneNumber (phone : String) : PhoneValidation :=
  let cleaned := stripNonDigits phone
  if strLen cleaned < 9 then
    { isValid := false, error := some "Numéro trop court" }
  else
    let carrier := strTakeChars (mtnCheckNumber cleaned) 2
    if carrier = "65" ∨ carrier = "67" ∨ carrier = "68" then
      { isValid := true, error := none }
    else
      { isValid := false, error := some "Ce n\x27est pas un numéro MTN Cameroun" }

/-- The digit characters of the input, the common first step of the
claim-worded phone specifications. -/
def specDigits (phone : String) : List Char :=
  phone.data.filter fun c => c.isDigit

/-- Claim wording of C8, step two: the digits with one leading trunk
digit `0` dropped when present. -/
def specTrunkDropped (phone : String) : List Char :=
  if (specDigits phone).head? = some '0' then (specDigits phone).tail else specDigits phone

/-- Modelled from the wording of claim C8, to be compared with
`formatPhoneNumber`: strip the non-digit characters, drop one leading
trunk digit `0` when present, put the country code `237` in front when
the result does not already start with it. -/
def formatPhoneNumberSpec (phone : String) : String :=
  if ['2', '3', '7'] <+: specTrunkDropped phone then String.mk (specTrunkDropped phone)
  else String.mk ('2' :: '3' :: '7' :: specTrunkDropped phone)

/-- Claim wording of C9: the digits with a leading country code `237`
stripped when present. -/
def specAfterCode (phone : String) : List Char :=
  if ['2', '3', '7'] <+: specDigits phone then (specDigits phone).drop 3 else specDigits phone

/-- Claim wording of C9: `specAfterCode` with a leading `0` stripped
when present. -/
def specAfterTrunk (phone : String) : List Char :=
  if (specAfterCode phone).head? = some '0' then (specAfterCode phone).tail
  else specAfterCode phone

/-- Modelled from the wording of claim C9, to be compared with
`validateMtnPhoneNumber`: the digit-only form of the input has at least
9 digits and, after stripping a leading country code `237` and then a
leading `0` when present, its first two digits are in the allow-list
65, 67, 68. -/
def mtnValidSpec (phone : String) : Prop :=
  9 ≤ (specDigits phone).length ∧
    (specAfterTrunk phone).take 2 ∈ ([['6', '5'], ['6', '7'], ['6', '8']] : List (List Char))

theorem singleton_prefix_iff_head (c : Char) (l : List Char) :
    [c] <+: l ↔ l.head? = some c := by
  cases l with
  | nil => simp
  | cons a t => simp [List.cons_prefix_cons, eq_comm]

theorem mk_eq_mk_iff (l m : List Char) : String.mk l = String.mk m ↔ l = m :=
  ⟨fun h => congrArg String.data h, fun h => congrArg String.mk h⟩

theorem strStartsWith_zero_iff (l : List Char) :
    strStartsWith (String.mk l) "0" = true ↔ l.head? = some '0' := by
  rw [strStartsWith_mk, show ("0".data : List Char) = ['0'] from rfl,
    singleton_prefix_iff_head]

theorem strStartsWith_237_iff (l : List Char) :
    strStartsWith (String.mk l) "237" = true ↔ (['2', '3', '7'] : List Char) <+: l := by
  rw [strStartsWith_mk]

/-- Bridging lemma: the trunk-digit step of the source, run on a digit
list, equals the claim-worded head-based description. -/
theorem trunk_ite (l : List Char) :
    (if strStartsWith (String.mk l) "0" then strDropChars (String.mk l) 1 else String.mk l)
      = String.mk (if l.head? = some '0' then l.tail else l) := by
  by_cases h : l.head? = some '0'
  · rw [if_pos ((strStartsWith_zero_iff l).mpr h), if_pos h]
    simp [strDropChars, List.drop_one]
  · rw [if_neg (fun hh => h ((strStartsWith_zero_iff l).mp hh)), if_neg h]

/-- Bridging lemma: the country-code-strip step of the source, run on a
digit list, equals the claim-worded list-level description. -/
theorem code_ite (l : List Char) :
    (if strStartsWith (String.mk l) "237" then strDropChars (String.mk l) 3 else String.mk l)
      = String.mk (if ['2', '3', '7'] <+: l then l.drop 3 else l) := by
  by_cases h : (['2', '3', '7'] : List Char) <+: l
  · rw [if_pos ((strStartsWith_237_iff l).mpr h), if_pos h]
    simp [strDropChars]
  · rw [if_neg (fun hh => h ((strStartsWith_237_iff l).mp hh)), if_neg h]

/-! ## Document store and stateful operations -/

/-- `MtnCallbackData` from payment.types.ts (the fields the handler
reads). -/
structure MtnCallbackData where
  referenceId : Option String
  order_id : Option String
  status : Option String
  financialTransactionId : Option String
deriving DecidableEq

/-- The vendor reply to the webpayment initiation call, with the fields
`initiatePayment` reads.  `MessageId` stands for
`parameters?.MessageId`; a vendor numeric error code is modelled by its
decimal string. -/
structure WebpaymentResponse where
  errorCode : Option String
  ErrorCode : Option String
  ErrorMessage : Option String
  body : Option String
  message : Option String
  MessageId : Option String
  status : Option String
deriving DecidableEq

/-- A document of the `mtn_transactions` collection. -/
structure Transaction where
  referenceId : String
  ynoteMessageId : String
  campaignId : Option String
  userId : Option String
  amount : Nat
  currency : String
  phoneNumber : String
  status : Option String
  paymentMethod : String
  ynoteResponse : Option WebpaymentResponse
  ynoteStatusResponse : Option YnoteResponse
  mtnCallbackData : Option MtnCallbackData
  financialTransactionId : Option String
  createdAt : Nat
  updatedAt : Nat
deriving DecidableEq

/-- A document of the `campaigns` collection (payment-relevant fields). -/
structure Campaign where
  userId : String
  name : Option String
  status : CampaignStatus
  paymentMethod : Option String
  paymentAmount : Option Nat
  paidAt : Option Nat
  mtnReferenceId : Option String
  ynoteMessageId : Option String
  mtnPaymentStatus : Option String
  mtnTransactionId : Option String
  updatedAt : Option Nat
  updatedBy : Option String
deriving DecidableEq

/-- A document of the `notifications` collection. -/
structure Notification where
  recipientId : Option String
  recipientType : String
  campaignId : Option String
  type : String
  message : String
  createdAt : Nat
  isRead : Bool
deriving DecidableEq

/-- The document store: the three collections this logic touches. -/
structure Store where
  campaigns : List (String × Campaign)
  transactions : List (String × Transaction)
  notifications : List Notification
deriving DecidableEq

/-- Look a document up by id. -/
def getDoc {α : Type} : List (String × α) → String → Option α
  | [], _ => none
  | (k, v) :: rest, key => if k = key then some v else getDoc rest key

/-- Write a document at an id (upsert). -/
def setDoc {α : Type} : List (String × α) → String → α → List (String × α)
  | [], key, v => [(key, v)]
  | (k, w) :: rest, key, v =>
      if k = key then (key, v) :: rest else (k, w) :: setDoc rest key v

theorem getDoc_setDoc_self {α : Type} (l : List (String × α)) (k : String) (v : α) :
    getDoc (setDoc l k v) k = some v := by
  induction l with
  | nil => simp [getDoc, setDoc]
  | cons hd tl ih =>
      obtain ⟨k', w⟩ := hd
      by_cases h : k' = k <;> simp [getDoc, setDoc, h, ih]

theorem getDoc_setDoc_ne {α : Type} (l : List (String × α)) (k k' : String) (v : α)
    (h : k' ≠ k) : getDoc (setDoc l k v) k' = getDoc l k' := by
  induction l with
  | nil => simp [getDoc, setDoc, Ne.symm h]
  | cons hd tl ih =>
      obtain ⟨k'', w⟩ := hd
      by_cases hk : k'' = k
      · subst hk
        simp [getDoc, setDoc, Ne.symm h]
      · simp [getDoc, setDoc, hk, ih]

/-- `PaymentStatusResponse` from payment.types.ts. -/
structure PaymentStatusResponse where
  success : Bool
  status : PaymentStatus
  amount : Option String
  currency : String
  financialTransactionId : Option String
  reason : Option String
deriving DecidableEq

/-- `PaymentResponse` from payment.types.ts. -/
structure PaymentResponse where
  success : Bool
  referenceId : String
  status : PaymentStatus
  message : String
deriving DecidableEq

/-- `handleSuccessfulPayment` (ynote.service.ts lines 433-470): when the
campaign exists and still awaits payment, move it to `scheduled`,
record the payment fields, and add a success notification; otherwise do
nothing. -/
def handleSuccessfulPayment (db : Store) (campaignId referenceId : String)
    (status : NormalizedYnoteStatus) (userId : Option String) (now : Nat) : Store :=
  match getDoc db.campaigns campaignId with
  | none => db
  | some campaignData =>
      if campaignData.status = CampaignStatus.pending_payment then
        { db with
          campaigns := setDoc db.campaigns campaignId
            { campaignData with
              status := CampaignStatus.scheduled
              paymentMethod := some "mtn"
              paymentAmount := some (status.amount.getD 0)
              paidAt := some now
              mtnPaymentStatus := some "SUCCESSFUL"
              mtnTransactionId := some (jsOrStr status.transactionId referenceId)
              updatedAt := some now
              updatedBy := some (jsOrStr userId campaignData.userId) }
          notifications := db.notifications ++
            [{ recipientId := some campaignData.userId
               recipientType := "user"
               campaignId := some campaignId
               type := "payment_success"
               message := "Paiement MTN Mobile Money de " ++ toString (status.amount.getD 0)
                 ++ " FCFA confirmé pour votre campagne."
               createdAt := now
               isRead := false }] }
      else db

/-- The transaction-row update of the poll path (ynote.service.ts lines
399-409): update the row with the normalized status and the raw vendor
reply when it exists, otherwise skip silently. -/
def pollTxnUpdate (db : Store) (referenceId : String) (resp : YnoteResponse)
    (now : Nat) : Store :=
  match getDoc db.transactions referenceId with
  | none => db
  | some txn =>
      { db with
        transactions := setDoc db.transactions referenceId
          { txn with
            status := some (normalizeYnoteStatus resp).status.toText
            ynoteStatusResponse := some resp
            updatedAt := now } }

/-- `checkPaymentStatus` (ynote.service.ts lines 354-428).  The vendor
status reply is the `resp` argument. -/
def checkPaymentStatus (db : Store) (referenceId : String) (campaignId : Option String)
    (userId : Option String) (resp : YnoteResponse) (now : Nat) :
    Store × Except String PaymentStatusResponse :=
  if referenceId = "" then (db, Except.error "referenceId requis")
  else
    let normalized := normalizeYnoteStatus resp
    let db1 := pollTxnUpdate db referenceId resp now
    let db2 :=
      if normalized.status = PaymentStatus.SUCCESSFUL ∧ jsTruthy campaignId then
        handleSuccessfulPayment db1 (campaignId.getD "") referenceId normalized userId now
      else db1
    (db2, Except.ok
      { success := true
        status := normalized.status
        amount := normalized.amount.map toString
        currency := "XAF"
        financialTransactionId := normalized.transactionId
        reason := normalized.reason })

/-- `handleCallback` (ynote.service.ts lines 475-558).  The transaction
row is updated with the raw callback status; the campaign transition
requires the raw status to be exactly `"SUCCESSFUL"`. -/
def handleCallback (db : Store) (cb : MtnCallbackData) (now : Nat) :
    Store × Except String Unit :=
  let refIdOpt := jsOr cb.referenceId cb.order_id
  if jsTruthy refIdOpt = false then
    (db, Except.error "referenceId manquant dans le callback")
  else
    let referenceId := refIdOpt.getD ""
    match getDoc db.transactions referenceId with
    | none => (db, Except.error "Transaction introuvable")
    | some transactionData =>
        let db1 := { db with
          transactions := setDoc db.transactions referenceId
            { transactionData with
              status := cb.status
              financialTransactionId := cb.financialTransactionId
              mtnCallbackData := some cb
              updatedAt := now } }
        if cb.status = some "SUCCESSFUL" ∧ jsTruthy transactionData.campaignId then
          let cid := transactionData.campaignId.getD ""
          match getDoc db1.campaigns cid with
          | none => (db1, Except.ok ())
          | some campaign =>
              if campaign.status = CampaignStatus.pending_payment then
                ({ db1 with
                   campaigns := setDoc db1.campaigns cid
                     { campaign with
                       status := CampaignStatus.scheduled
                       paymentMethod := some "mtn"
                       paymentAmount := some transactionData.amount
                       paidAt := some now
                       mtnPaymentStatus := some "SUCCESSFUL"
                       mtnTransactionId :=
                         some (jsOrStr cb.financialTransactionId referenceId)
                       updatedAt := some now
                       updatedBy := transactionData.userId }
                   notifications := db1.notifications ++
                     [{ recipientId := transactionData.userId
                        recipientType := "user"
                        campaignId := transactionData.campaignId
                        type := "payment_success"
                        message := "Paiement MTN Mobile Money de "
                          ++ toString transactionData.amount
                          ++ " FCFA confirmé pour votre campagne."
                        createdAt := now
                        isRead := false }] }, Except.ok ())
              else (db1, Except.ok ())
        else if cb.status = some "FAILED" ∧ jsTruthy transactionData.campaignId then
          let cid := transactionData.campaignId.getD ""
          let db2 := { db1 with
            notifications := db1.notifications ++
              [{ recipientId := transactionData.userId
                 recipientType := "user"
                 campaignId := transactionData.campaignId
                 type := "payment_failed"
                 message := "Le paiement MTN Mobile Money de "
                   ++ toString transactionData.amount
                   ++ " FCFA a échoué. Veuillez réessayer."
                 createdAt := now
                 isRead := false }] }
          match getDoc db2.campaigns cid with
          | none =>
              -- Firestore rejects `update` on a missing document; the
              -- notification write above has already happened.
              (db2, Except.error "NOT_FOUND: no document to update")
          | some campaign =>
              ({ db2 with
                 campaigns := setDoc db2.campaigns cid
                   { campaign with
                     mtnPaymentStatus := some "FAILED"
                     updatedAt := some now } }, Except.ok ())
        else (db1, Except.ok ())

/-- The webhook route `POST /api/webhooks/ynote-callback`
(webhook.routes.ts lines 647-681): 200 on success, then message
pattern-matching: `introuvable` gives 404, `manquant` gives 400, and
the catch-all branch answers 500. -/
def ynoteCallbackRoute (processing : Except String Unit) : Nat :=
  match processing with
  | Except.ok _ => 200
  | Except.error msg =>
      if strIncludes msg "introuvable" then 404
      else if strIncludes msg "manquant" then 400
      else 500

/-- `InitiatePaymentRequest` from payment.types.ts; an absent `amount`
is 0, absent strings are `""` (JS falsiness). -/
structure InitiatePaymentRequest where
  campaignId : String
  amount : Nat
  phoneNumber : String
  payerMessage : Option String
deriving DecidableEq

/-- `initiatePayment` (ynote.service.ts lines 189-325).  The fresh uuid
and the gateway reply are arguments. -/
def initiatePayment (db : Store) (request : InitiatePaymentRequest) (userId : String)
    (freshReferenceId : String) (gatewayReply : WebpaymentResponse) (now : Nat) :
    Store × Except String PaymentResponse :=
  if request.campaignId = "" ∨ request.amount = 0 ∨ request.phoneNumber = "" then
    (db, Except.error "Paramètres manquants: campaignId, amount, phoneNumber requis")
  else if request.amount < 100 then
    (db, Except.error "Le montant minimum est de 100 FCFA")
  else if (validateMtnPhoneNumber request.phoneNumber).isValid = false then
    (db, Except.error
      (jsOrStr (validateMtnPhoneNumber request.phoneNumber).error
        "Numéro de téléphone invalide"))
  else
    match getDoc db.campaigns request.campaignId with
    | none => (db, Except.error "Campagne introuvable")
    | some campaignData =>
        if campaignData.userId ≠ userId then
          (db, Except.error "Cette campagne ne vous appartient pas")
        else if campaignData.status ≠ CampaignStatus.pending_payment then
          (db, Except.error "Cette campagne n\x27est pas en attente de paiement")
        else
          let errorCode := jsOr gatewayReply.errorCode gatewayReply.ErrorCode
          if jsTruthy errorCode
              ∧ errorCode.getD "" ∉ (["200", "201"] : List String) then
            (db, Except.error ("Erreur Y-Note (" ++ errorCode.getD "" ++ "): "
              ++ jsOrStr (jsOr (jsOr gatewayReply.ErrorMessage gatewayReply.body)
                   gatewayReply.message) "Erreur inconnue"))
          else
            let ynoteMessageId := jsOrStr gatewayReply.MessageId freshReferenceId
            let txn : Transaction :=
              { referenceId := freshReferenceId
                ynoteMessageId := ynoteMessageId
                campaignId := some request.campaignId
                userId := some userId
                amount := request.amount
                currency := "XAF"
                phoneNumber := formatPhoneNumber request.phoneNumber
                status := some (jsOrStr gatewayReply.status "PENDING")
                paymentMethod := "mtn"
                ynoteResponse := some gatewayReply
                ynoteStatusResponse := none
                mtnCallbackData := none
                financialTransactionId := none
                createdAt := now
                updatedAt := now }
            let db1 := { db with
              transactions := setDoc db.transactions freshReferenceId txn }
            let db2 := { db1 with
              campaigns := setDoc db1.campaigns request.campaignId
                { campaignData with
                  mtnReferenceId := some freshReferenceId
                  ynoteMessageId := some ynoteMessageId
                  mtnPaymentStatus := some "PENDING"
                  updatedAt := some now } }
            (db2, Except.ok
              { success := true
                referenceId := ynoteMessageId
                status := PaymentStatus.PENDING
                message := "Paiement initié. Veuillez confirmer sur votre téléphone." })

instance decEqExcept {ε α : Type} [DecidableEq ε] [DecidableEq α] :
    DecidableEq (Except ε α) := fun x y =>
  match x, y with
  | Except.ok a, Except.ok b =>
      if h : a = b then Decidable.isTrue (by rw [h])
      else Decidable.isFalse (by intro hh; injection hh with h2; exact h h2)
  | Except.error a, Except.error b =>
      if h : a = b then Decidable.isTrue (by rw [h])
      else Decidable.isFalse (by intro hh; injection hh with h2; exact h h2)
  | Except.ok _, Except.error _ => Decidable.isFalse (by intro hh; cases hh)
  | Except.error _, Except.ok _ => Decidable.isFalse (by intro hh; cases hh)

/-! ## Branch characterizations of the stateful operations -/

/-- The transaction row as `handleCallback` rewrites it. -/
def callbackTxnUpdate (txn : Transaction) (cb : MtnCallbackData) (now : Nat) : Transaction :=
  { txn with
    status := cb.status
    financialTransactionId := cb.financialTransactionId
    mtnCallbackData := some cb
    updatedAt := now }

/-- The campaign as the callback success branch rewrites it. -/
def callbackCampaignUpdate (camp : Campaign) (txn : Transaction) (cb : MtnCallbackData)
    (ref : String) (now : Nat) : Campaign :=
  { camp with
    status := CampaignStatus.scheduled
    paymentMethod := some "mtn"
    paymentAmount := some txn.amount
    paidAt := some now
    mtnPaymentStatus := some "SUCCESSFUL"
    mtnTransactionId := some (jsOrStr cb.financialTransactionId ref)
    updatedAt := some now
    updatedBy := txn.userId }

/-- The notification the callback success branch creates. -/
def callbackSuccessNotification (txn : Transaction) (now : Nat) : Notification :=
  { recipientId := txn.userId
    recipientType := "user"
    campaignId := txn.campaignId
    type := "payment_success"
    message := "Paiement MTN Mobile Money de " ++ toString txn.amount
      ++ " FCFA confirmé pour votre campagne."
    createdAt := now
    isRead := false }

theorem pollTxnUpdate_some (db : Store) (ref : String) (resp : YnoteResponse) (now : Nat)
    (txn : Transaction) (h : getDoc db.transactions ref = some txn) :
    pollTxnUpdate db ref resp now = { db with
      transactions := setDoc db.transactions ref
        { txn with
          status := some (normalizeYnoteStatus resp).status.toText
          ynoteStatusResponse := some resp
          updatedAt := now } } := by
  simp only [pollTxnUpdate, h]

theorem pollTxnUpdate_none (db : Store) (ref : String) (resp : YnoteResponse) (now : Nat)
    (h : getDoc db.transactions ref = none) :
    pollTxnUpdate db ref resp now = db := by
  simp only [pollTxnUpdate, h]

theorem pollTxnUpdate_campaigns (db : Store) (ref : String) (resp : YnoteResponse)
    (now : Nat) : (pollTxnUpdate db ref resp now).campaigns = db.campaigns := by
  cases h : getDoc db.transactions ref with
  | none => rw [pollTxnUpdate_none db ref resp now h]
  | some txn => rw [pollTxnUpdate_some db ref resp now txn h]

theorem pollTxnUpdate_notifications (db : Store) (ref : String) (resp : YnoteResponse)
    (now : Nat) : (pollTxnUpdate db ref resp now).notifications = db.notifications := by
  cases h : getDoc db.transactions ref with
  | none => rw [pollTxnUpdate_none db ref resp now h]
  | some txn => rw [pollTxnUpdate_some db ref resp now txn h]

/-- The campaign as `handleSuccessfulPayment` rewrites it. -/
def pollCampaignUpdate (camp : Campaign) (status : NormalizedYnoteStatus)
    (ref : String) (userId : Option String) (now : Nat) : Campaign :=
  { camp with
    status := CampaignStatus.scheduled
    paymentMethod := some "mtn"
    paymentAmount := some (status.amount.getD 0)
    paidAt := some now
    mtnPaymentStatus := some "SUCCESSFUL"
    mtnTransactionId := some (jsOrStr status.transactionId ref)
    updatedAt := some now
    updatedBy := some (jsOrStr userId camp.userId) }

/-- The notification `handleSuccessfulPayment` creates. -/
def pollSuccessNotification (camp : Campaign) (status : NormalizedYnoteStatus)
    (cid : String) (now : Nat) : Notification :=
  { recipientId := some camp.userId
    recipientType := "user"
    campaignId := some cid
    type := "payment_success"
    message := "Paiement MTN Mobile Money de " ++ toString (status.amount.getD 0)
      ++ " FCFA confirmé pour votre campagne."
    createdAt := now
    isRead := false }

theorem handleSuccessfulPayment_pending_eq (db : Store) (cid ref : String)
    (st : NormalizedYnoteStatus) (uid : Option String) (now : Nat) (camp : Campaign)
    (hc : getDoc db.campaigns cid = some camp)
    (hp : camp.status = CampaignStatus.pending_payment) :
    handleSuccessfulPayment db cid ref st uid now = { db with
      campaigns := setDoc db.campaigns cid (pollCampaignUpdate camp st ref uid now)
      notifications := db.notifications ++ [pollSuccessNotification camp st cid now] } := by
  simp only [handleSuccessfulPayment, hc, hp, if_pos]
  rfl

theorem handleSuccessfulPayment_not_pending_eq (db : Store) (cid ref : String)
    (st : NormalizedYnoteStatus) (uid : Option String) (now : Nat) (camp : Campaign)
    (hc : getDoc db.campaigns cid = some camp)
    (hp : camp.status ≠ CampaignStatus.pending_payment) :
    handleSuccessfulPayment db cid ref st uid now = db := by
  simp only [handleSuccessfulPayment, hc]
  rw [if_neg hp]

theorem handleSuccessfulPayment_missing_eq (db : Store) (cid ref : String)
    (st : NormalizedYnoteStatus) (uid : Option String) (now : Nat)
    (hc : getDoc db.campaigns cid = none) :
    handleSuccessfulPayment db cid ref st uid now = db := by
  simp only [handleSuccessfulPayment, hc]

theorem handleSuccessfulPayment_transactions (db : Store) (cid ref : String)
    (st : NormalizedYnoteStatus) (uid : Option String) (now : Nat) :
    (handleSuccessfulPayment db cid ref st uid now).transactions = db.transactions := by
  cases hc : getDoc db.campaigns cid with
  | none => rw [handleSuccessfulPayment_missing_eq db cid ref st uid now hc]
  | some camp =>
      by_cases hp : camp.status = CampaignStatus.pending_payment
      · rw [handleSuccessfulPayment_pending_eq db cid ref st uid now camp hc hp]
      · rw [handleSuccessfulPayment_not_pending_eq db cid ref st uid now camp hc hp]

theorem checkPaymentStatus_eq (db : Store) (ref : String) (cidOpt uid : Option String)
    (resp : YnoteResponse) (now : Nat) (href : ref ≠ "") :
    checkPaymentStatus db ref cidOpt uid resp now =
      ((if (normalizeYnoteStatus resp).status = PaymentStatus.SUCCESSFUL
            ∧ jsTruthy cidOpt = true then
          handleSuccessfulPayment (pollTxnUpdate db ref resp now) (cidOpt.getD "") ref
            (normalizeYnoteStatus resp) uid now
        else pollTxnUpdate db ref resp now),
       Except.ok
        { success := true
          status := (normalizeYnoteStatus resp).status
          amount := (normalizeYnoteStatus resp).amount.map toString
          currency := "XAF"
          financialTransactionId := (normalizeYnoteStatus resp).transactionId
          reason := (normalizeYnoteStatus resp).reason }) := by
  simp only [checkPaymentStatus]
  rw [if_neg href]

theorem handleCallback_missing_ref (db : Store) (cb : MtnCallbackData) (now : Nat)
    (h : jsTruthy (jsOr cb.referenceId cb.order_id) = false) :
    handleCallback db cb now = (db, Except.error "referenceId manquant dans le callback") := by
  simp only [handleCallback, h, if_pos]

theorem handleCallback_unknown_txn (db : Store) (cb : MtnCallbackData) (now : Nat)
    (ref : String) (h1 : jsOr cb.referenceId cb.order_id = some ref) (href : ref ≠ "")
    (h2 : getDoc db.transactions ref = none) :
    handleCallback db cb now = (db, Except.error "Transaction introuvable") := by
  simp only [handleCallback, h1, jsTruthy_some, href, decide_not, Option.getD_some, h2]
  simp [href]

theorem handleCallback_success_pending (db : Store) (cb : MtnCallbackData) (now : Nat)
    (ref cid : String) (txn : Transaction) (camp : Campaign)
    (h1 : jsOr cb.referenceId cb.order_id = some ref) (href : ref ≠ "")
    (h2 : getDoc db.transactions ref = some txn)
    (h3 : txn.campaignId = some cid) (hcid : cid ≠ "")
    (h4 : cb.status = some "SUCCESSFUL")
    (hcamp : getDoc db.campaigns cid = some camp)
    (hpend : camp.status = CampaignStatus.pending_payment) :
    handleCallback db cb now = ({ db with
      transactions := setDoc db.transactions ref (callbackTxnUpdate txn cb now)
      campaigns := setDoc db.campaigns cid (callbackCampaignUpdate camp txn cb ref now)
      notifications := db.notifications ++ [callbackSuccessNotification txn now] },
     Except.ok ()) := by
  simp only [handleCallback, h1, jsTruthy_some, Option.getD_some, h2, h3, h4, hcamp, hpend]
  simp [href, hcid, h3, h4, callbackTxnUpdate, callbackCampaignUpdate,
    callbackSuccessNotification]

theorem handleCallback_success_not_pending (db : Store) (cb : MtnCallbackData) (now : Nat)
    (ref cid : String) (txn : Transaction) (camp : Campaign)
    (h1 : jsOr cb.referenceId cb.order_id = some ref) (href : ref ≠ "")
    (h2 : getDoc db.transactions ref = some txn)
    (h3 : txn.campaignId = some cid) (hcid : cid ≠ "")
    (h4 : cb.status = some "SUCCESSFUL")
    (hcamp : getDoc db.campaigns cid = some camp)
    (hpend : camp.status ≠ CampaignStatus.pending_payment) :
    handleCallback db cb now = ({ db with
      transactions := setDoc db.transactions ref (callbackTxnUpdate txn cb now) },
     Except.ok ()) := by
  simp only [handleCallback, h1, jsTruthy_some, Option.getD_some, h2, h3, h4, hcamp]
  simp [href, hcid, hpend, h3, h4, callbackTxnUpdate]

theorem checkPaymentStatus_transactions (db : Store) (ref : String)
    (cidOpt uid : Option String) (resp : YnoteResponse) (now : Nat) (href : ref ≠ "") :
    (checkPaymentStatus db ref cidOpt uid resp now).1.transactions
      = (pollTxnUpdate db ref resp now).transactions := by
  rw [checkPaymentStatus_eq db ref cidOpt uid resp now href]
  dsimp only
  split
  · rw [handleSuccessfulPayment_transactions]
  · rfl

theorem handleCallback_txn_only (db : Store) (cb : MtnCallbackData) (now : Nat)
    (ref : String) (txn : Transaction)
    (h1 : jsOr cb.referenceId cb.order_id = some ref) (href : ref ≠ "")
    (h2 : getDoc db.transactions ref = some txn)
    (hS : ¬ (cb.status = some "SUCCESSFUL" ∧ jsTruthy txn.campaignId = true))
    (hF : ¬ (cb.status = some "FAILED" ∧ jsTruthy txn.campaignId = true)) :
    handleCallback db cb now = ({ db with
      transactions := setDoc db.transactions ref (callbackTxnUpdate txn cb now) },
     Except.ok ()) := by
  simp only [handleCallback, h1, jsTruthy_some, Option.getD_some, h2]
  simp [href, hS, hF, callbackTxnUpdate]

/-- The notification the callback FAILED branch creates. -/
def callbackFailedNotification (txn : Transaction) (now : Nat) : Notification :=
  { recipientId := txn.userId
    recipientType := "user"
    campaignId := txn.campaignId
    type := "payment_failed"
    message := "Le paiement MTN Mobile Money de " ++ toString txn.amount
      ++ " FCFA a échoué. Veuillez réessayer."
    createdAt := now
    isRead := false }

theorem handleCallback_failed_camp (db : Store) (cb : MtnCallbackData) (now : Nat)
    (ref cid : String) (txn : Transaction) (camp : Campaign)
    (h1 : jsOr cb.referenceId cb.order_id = some ref) (href : ref ≠ "")
    (h2 : getDoc db.transactions ref = some txn)
    (h3 : txn.campaignId = some cid) (hcid : cid ≠ "")
    (h4 : cb.status = some "FAILED")
    (hcamp : getDoc db.campaigns cid = some camp) :
    handleCallback db cb now = ({ db with
      transactions := setDoc db.transactions ref (callbackTxnUpdate txn cb now)
      campaigns := setDoc db.campaigns cid
        { camp with mtnPaymentStatus := some "FAILED", updatedAt := some now }
      notifications := db.notifications ++ [callbackFailedNotification txn now] },
     Except.ok ()) := by
  have hS : ¬ ((some "FAILED" : Option String) = some "SUCCESSFUL") := by decide
  simp only [handleCallback, h1, jsTruthy_some, Option.getD_some, h2, h3, h4, hcamp]
  simp [href, hcid, hS, h3, h4, callbackTxnUpdate, callbackFailedNotification]

theorem handleCallback_failed_missing (db : Store) (cb : MtnCallbackData) (now : Nat)
    (ref cid : String) (txn : Transaction)
    (h1 : jsOr cb.referenceId cb.order_id = some ref) (href : ref ≠ "")
    (h2 : getDoc db.transactions ref = some txn)
    (h3 : txn.campaignId = some cid) (hcid : cid ≠ "")
    (h4 : cb.status = some "FAILED")
    (hcamp : getDoc db.campaigns cid = none) :
    handleCallback db cb now = ({ db with
      transactions := setDoc db.transactions ref (callbackTxnUpdate txn cb now)
      notifications := db.notifications ++ [callbackFailedNotification txn now] },
     Except.error "NOT_FOUND: no document to update") := by
  have hS : ¬ ((some "FAILED" : Option String) = some "SUCCESSFUL") := by decide
  simp only [handleCallback, h1, jsTruthy_some, Option.getD_some, h2, h3, h4, hcamp]
  simp [href, hcid, hS, h3, h4, callbackTxnUpdate, callbackFailedNotification]

/-- Replacing one campaign by one with the same `status` preserves
every campaign's `status` as seen through `getDoc`. -/
theorem getDoc_map_status_setDoc (l : List (String × Campaign)) (k : String)
    (camp camp' : Campaign) (hc : getDoc l k = some camp)
    (hs : camp'.status = camp.status) (c : String) :
    (getDoc (setDoc l k camp') c).map Campaign.status
      = (getDoc l c).map Campaign.status := by
  by_cases h : c = k
  · subst h
    rw [getDoc_setDoc_self, hc]
    simp [hs]
  · rw [getDoc_setDoc_ne _ _ _ _ h]

theorem handleCallback_transactions (db : Store) (cb : MtnCallbackData) (now : Nat)
    (ref : String) (txn : Transaction)
    (h1 : jsOr cb.referenceId cb.order_id = some ref) (href : ref ≠ "")
    (h2 : getDoc db.transactions ref = some txn) :
    (handleCallback db cb now).1.transactions
      = setDoc db.transactions ref (callbackTxnUpdate txn cb now) := by
  simp only [handleCallback, h1, jsTruthy_some, Option.getD_some, h2]
  rw [if_neg (by simp [href])]
  split
  · split
    · simp [callbackTxnUpdate]
    · split <;> simp [callbackTxnUpdate]
  · split
    · split <;> simp [callbackTxnUpdate]
    · simp [callbackTxnUpdate]

end Paynote

namespace Paynote

/-! ## Theorems for the purely functional claims -/

/-- C1: `normalizeYnoteStatus` is a pure function of the vendor
response; with the status field taken as `status`, else
`transactionStatus`, else the default `"PENDING"`, the values
SUCCESSFUL/SUCCESS/COMPLETED map to SUCCESSFUL, the values
FAILED/REJECTED/CANCELLED/EXPIRED map to FAILED, and every other value
(in particular a missing status field, which defaults) maps to
PENDING. -/
theorem C1_normalize_status (r : YnoteResponse) :
    (statusField r ∈ (["SUCCESSFUL", "SUCCESS", "COMPLETED"] : List String) →
      (normalizeYnoteStatus r).status = PaymentStatus.SUCCESSFUL) ∧
    (statusField r ∈ (["FAILED", "REJECTED", "CANCELLED", "EXPIRED"] : List String) →
      (normalizeYnoteStatus r).status = PaymentStatus.FAILED) ∧
    (statusField r ∉ (["SUCCESSFUL", "SUCCESS", "COMPLETED",
        "FAILED", "REJECTED", "CANCELLED", "EXPIRED"] : List String) →
      (normalizeYnoteStatus r).status = PaymentStatus.PENDING) ∧
    ((r.status = none ∧ r.transactionStatus = none) →
      (normalizeYnoteStatus r).status = PaymentStatus.PENDING) := by
  have hnorm : (normalizeYnoteStatus r).status = mapYnoteStatus (statusField r) := rfl
  refine ⟨?_, ?_, ?_, ?_⟩
  · intro h
    rw [hnorm]
    simp only [List.mem_cons, List.not_mem_nil, or_false] at h
    rcases h with h | h | h <;> simp [mapYnoteStatus, h]
  · intro h
    rw [hnorm]
    simp only [List.mem_cons, List.not_mem_nil, or_false] at h
    rcases h with h | h | h | h <;> simp [mapYnoteStatus, h]
  · intro h
    rw [hnorm]
    simp only [List.mem_cons, List.not_mem_nil, or_false] at h
    push_neg at h
    obtain ⟨h1, h2, h3, h4, h5, h6, h7⟩ := h
    simp [mapYnoteStatus, h1, h2, h3, h4, h5, h6, h7]
  · rintro ⟨h1, h2⟩
    rw [hnorm]
    have hs : statusField r = "PENDING" := by
      simp [statusField, h1, h2]
    rw [hs]
    simp [mapYnoteStatus]

/-- Witness for C1 at a concrete input. -/
theorem C1_normalize_status_witness :
    (normalizeYnoteStatus
      { status := some "COMPLETED", transactionStatus := none, amount := none,
        transactionId := none, financialTransactionId := none, externalId := none,
        reason := none, message := none, errorMessage := none }).status
      = PaymentStatus.SUCCESSFUL :=
  (C1_normalize_status _).1 (by decide)

/-- C8: `formatPhoneNumber` strips the non-digit characters, drops one
leading trunk digit `0`, and puts the country code `237` in front when
the result does not already start with it; in particular both
`"0677123456"` and `"677123456"` format to `"237677123456"`. -/
theorem C8_formatPhoneNumber (phone : String) :
    formatPhoneNumber phone = formatPhoneNumberSpec phone ∧
    formatPhoneNumber "0677123456" = "237677123456" ∧
    formatPhoneNumber "677123456" = "237677123456" := by
  refine ⟨?_, by decide, by decide⟩
  simp only [formatPhoneNumber]
  rw [show stripNonDigits phone = String.mk (specDigits phone) from rfl, trunk_ite]
  rw [show (if (specDigits phone).head? = some '0' then (specDigits phone).tail
      else specDigits phone) = specTrunkDropped phone from rfl]
  unfold formatPhoneNumberSpec
  by_cases hp : (['2', '3', '7'] : List Char) <+: specTrunkDropped phone
  · rw [if_pos ((strStartsWith_237_iff _).mpr hp), if_pos hp]
  · rw [if_neg (fun hh => hp ((strStartsWith_237_iff _).mp hh)), if_neg hp]
    rfl

/-- C9: `validateMtnPhoneNumber` reports valid exactly when the
digit-only form of the input has at least 9 digits and, after stripping
a leading `237` country code and then a leading `0`, its first two
digits are in the allow-list 65/67/68; otherwise it returns invalid
with a human-readable error.  A carrier code of 69 is always rejected,
and `"23767712345"` validates. -/
theorem C9_validateMtnPhoneNumber (phone : String) :
    ((validateMtnPhoneNumber phone).isValid = true ↔ mtnValidSpec phone) ∧
    ((validateMtnPhoneNumber phone).isValid = false →
      ∃ msg, (validateMtnPhoneNumber phone).error = some msg) ∧
    (strTakeChars (mtnCheckNumber (stripNonDigits phone)) 2 = "69" →
      (validateMtnPhoneNumber phone).isValid = false) ∧
    (validateMtnPhoneNumber "23767712345").isValid = true := by
  have hcheck : mtnCheckNumber (stripNonDigits phone) = String.mk (specAfterTrunk phone) := by
    simp only [mtnCheckNumber]
    rw [show stripNonDigits phone = String.mk (specDigits phone) from rfl, code_ite]
    rw [show (if ['2', '3', '7'] <+: specDigits phone then (specDigits phone).drop 3
        else specDigits phone) = specAfterCode phone from rfl, trunk_ite]
    rfl
  refine ⟨?_, ?_, ?_, by decide⟩
  · simp only [validateMtnPhoneNumber]
    rw [hcheck]
    rw [show strLen (stripNonDigits phone) = (specDigits phone).length from rfl]
    rw [show strTakeChars (String.mk (specAfterTrunk phone)) 2
        = String.mk ((specAfterTrunk phone).take 2) from rfl]
    unfold mtnValidSpec
    by_cases h9 : (specDigits phone).length < 9
    · rw [if_pos h9]
      have h9' : ¬ (9 ≤ (specDigits phone).length) := by omega
      simp [h9']
    · rw [if_neg h9]
      have h9' : 9 ≤ (specDigits phone).length := by omega
      by_cases hc : String.mk ((specAfterTrunk phone).take 2) = "65"
          ∨ String.mk ((specAfterTrunk phone).take 2) = "67"
          ∨ String.mk ((specAfterTrunk phone).take 2) = "68"
      · rw [if_pos hc]
        constructor
        · intro _
          refine ⟨h9', ?_⟩
          rcases hc with hc | hc | hc
          · rw [(mk_eq_mk_iff _ ['6', '5']).mp hc]
            simp
          · rw [(mk_eq_mk_iff _ ['6', '7']).mp hc]
            simp
          · rw [(mk_eq_mk_iff _ ['6', '8']).mp hc]
            simp
        · intro _
          rfl
      · rw [if_neg hc]
        constructor
        · intro h
          exact absurd h (by decide)
        · rintro ⟨-, hmem⟩
          exfalso
          apply hc
          simp only [List.mem_cons, List.not_mem_nil, or_false] at hmem
          rcases hmem with h | h | h
          · exact Or.inl ((mk_eq_mk_iff _ ['6', '5']).mpr h)
          · exact Or.inr (Or.inl ((mk_eq_mk_iff _ ['6', '7']).mpr h))
          · exact Or.inr (Or.inr ((mk_eq_mk_iff _ ['6', '8']).mpr h))
  · simp only [validateMtnPhoneNumber]
    by_cases h9 : strLen (stripNonDigits phone) < 9
    · rw [if_pos h9]
      intro
      exact ⟨_, rfl⟩
    · rw [if_neg h9]
      by_cases hc : strTakeChars (mtnCheckNumber (stripNonDigits phone)) 2 = "65"
          ∨ strTakeChars (mtnCheckNumber (stripNonDigits phone)) 2 = "67"
          ∨ strTakeChars (mtnCheckNumber (stripNonDigits phone)) 2 = "68"
      · rw [if_pos hc]
        intro hfalse
        exact absurd hfalse (by decide)
      · rw [if_neg hc]
        intro
        exact ⟨_, rfl⟩
  · intro h69
    simp only [validateMtnPhoneNumber]
    by_cases h9 : strLen (stripNonDigits phone) < 9
    · rw [if_pos h9]
    · rw [if_neg h9, if_neg]
      rw [h69]
      decide

/-- Witness for C9: a number with carrier code 69 is rejected, by the
third conjunct of the theorem at a concrete input. -/
theorem C9_validateMtnPhoneNumber_witness :
    (validateMtnPhoneNumber "697123456").isValid = false :=
  (C9_validateMtnPhoneNumber "697123456").2.2.1 (by decide)

/-! ## Theorems for the state-transition claims -/

/-- Fixture: a pending transaction linked to campaign `camp1`. -/
def txC2 : Transaction :=
  { referenceId := "ref1", ynoteMessageId := "m1", campaignId := some "camp1",
    userId := some "alice", amount := 500, currency := "XAF",
    phoneNumber := "237677123456", status := some "PENDING", paymentMethod := "mtn",
    ynoteResponse := none, ynoteStatusResponse := none, mtnCallbackData := none,
    financialTransactionId := none, createdAt := 0, updatedAt := 0 }

/-- Fixture: a campaign awaiting payment. -/
def campC2 : Campaign :=
  { userId := "alice", name := some "Campagne A",
    status := CampaignStatus.pending_payment, paymentMethod := none,
    paymentAmount := none, paidAt := none, mtnReferenceId := some "ref1",
    ynoteMessageId := some "m1", mtnPaymentStatus := some "PENDING",
    mtnTransactionId := none, updatedAt := none, updatedBy := none }

/-- Fixture: the store holding the two documents above. -/
def dbC2 : Store :=
  { campaigns := [("camp1", campC2)], transactions := [("ref1", txC2)],
    notifications := [] }

/-- Fixture: a callback carrying the vendor status `SUCCESS`. -/
def cbC2 : MtnCallbackData :=
  { referenceId := some "ref1", order_id := none, status := some "SUCCESS",
    financialTransactionId := some "ft1" }

/-- C2 counterexample: a callback carrying vendor status `SUCCESS` — a
status that normalizes to SUCCESSFUL — processed against a campaign in
`pending_payment` does NOT move it to `scheduled` and emits no
notification: `handleCallback` compares the raw callback status with
the literal `"SUCCESSFUL"` and never normalizes it. -/
theorem C2_counterexample :
    mapYnoteStatus "SUCCESS" = PaymentStatus.SUCCESSFUL ∧
    campC2.status = CampaignStatus.pending_payment ∧
    (handleCallback dbC2 cbC2 7).2 = Except.ok () ∧
    (getDoc (handleCallback dbC2 cbC2 7).1.campaigns "camp1").map Campaign.status
      = some CampaignStatus.pending_payment ∧
    (handleCallback dbC2 cbC2 7).1.notifications = [] := by decide

/-- C2 amended: through either entry point, the campaign is moved to
`scheduled` with a success notification exactly when the campaign is
still `pending_payment` and the status is SUCCESSFUL — where only the
poll normalizes the vendor status first, while the callback requires
the raw status to be exactly `"SUCCESSFUL"`.  Conversely: a poll whose
normalized status is not SUCCESSFUL, a poll or callback against a
non-pending campaign, and a callback carrying `SUCCESS` or `COMPLETED`
change no campaign status and emit no success notification (a FAILED
callback adds only a `payment_failed` notification). -/
theorem C2_amended (db : Store) (ref cid : String) (uid : Option String)
    (resp : YnoteResponse) (cb : MtnCallbackData) (txn : Transaction) (camp : Campaign)
    (now : Nat)
    (href : ref ≠ "") (hcid : cid ≠ "") :
    (getDoc db.campaigns cid = some camp →
      camp.status = CampaignStatus.pending_payment →
      (normalizeYnoteStatus resp).status = PaymentStatus.SUCCESSFUL →
      (getDoc (checkPaymentStatus db ref (some cid) uid resp now).1.campaigns cid).map
          Campaign.status = some CampaignStatus.scheduled ∧
      ∃ n : Notification,
        (checkPaymentStatus db ref (some cid) uid resp now).1.notifications
          = db.notifications ++ [n] ∧ n.type = "payment_success") ∧
    ((normalizeYnoteStatus resp).status ≠ PaymentStatus.SUCCESSFUL →
      (checkPaymentStatus db ref (some cid) uid resp now).1.campaigns = db.campaigns ∧
      (checkPaymentStatus db ref (some cid) uid resp now).1.notifications
        = db.notifications) ∧
    (getDoc db.campaigns cid = some camp →
      camp.status ≠ CampaignStatus.pending_payment →
      (checkPaymentStatus db ref (some cid) uid resp now).1.campaigns = db.campaigns ∧
      (checkPaymentStatus db ref (some cid) uid resp now).1.notifications
        = db.notifications) ∧
    (jsOr cb.referenceId cb.order_id = some ref →
      getDoc db.transactions ref = some txn →
      txn.campaignId = some cid →
      cb.status = some "SUCCESSFUL" →
      getDoc db.campaigns cid = some camp →
      camp.status = CampaignStatus.pending_payment →
      (getDoc (handleCallback db cb now).1.campaigns cid).map Campaign.status
          = some CampaignStatus.scheduled ∧
      ∃ n : Notification,
        (handleCallback db cb now).1.notifications = db.notifications ++ [n]
          ∧ n.type = "payment_success") ∧
    (jsOr cb.referenceId cb.order_id = some ref →
      getDoc db.transactions ref = some txn →
      cb.status ≠ some "SUCCESSFUL" →
      (∀ c : String,
        (getDoc (handleCallback db cb now).1.campaigns c).map Campaign.status
          = (getDoc db.campaigns c).map Campaign.status) ∧
      (∀ n : Notification, n ∈ (handleCallback db cb now).1.notifications →
        n ∈ db.notifications ∨ n.type = "payment_failed")) ∧
    (jsOr cb.referenceId cb.order_id = some ref →
      getDoc db.transactions ref = some txn →
      txn.campaignId = some cid →
      cb.status = some "SUCCESSFUL" →
      getDoc db.campaigns cid = some camp →
      camp.status ≠ CampaignStatus.pending_payment →
      (handleCallback db cb now).1.campaigns = db.campaigns ∧
      (handleCallback db cb now).1.notifications = db.notifications) ∧
    (jsOr cb.referenceId cb.order_id = some ref →
      getDoc db.transactions ref = some txn →
      (cb.status = some "SUCCESS" ∨ cb.status = some "COMPLETED") →
      (handleCallback db cb now).1.campaigns = db.campaigns ∧
      (handleCallback db cb now).1.notifications = db.notifications) := by
  refine ⟨?_, ?_, ?_, ?_, ?_, ?_, ?_⟩
  · intro hcamp hpend hnorm
    have hstore : (checkPaymentStatus db ref (some cid) uid resp now).1
        = handleSuccessfulPayment (pollTxnUpdate db ref resp now) cid ref
            (normalizeYnoteStatus resp) uid now := by
      rw [checkPaymentStatus_eq db ref (some cid) uid resp now href]
      simp [hnorm, hcid]
    have hc2 : getDoc (pollTxnUpdate db ref resp now).campaigns cid = some camp := by
      rw [pollTxnUpdate_campaigns]
      exact hcamp
    rw [hstore,
      handleSuccessfulPayment_pending_eq _ cid ref _ uid now camp hc2 hpend]
    constructor
    · simp [getDoc_setDoc_self, pollCampaignUpdate]
    · refine ⟨pollSuccessNotification camp (normalizeYnoteStatus resp) cid now, ?_, rfl⟩
      simp [pollTxnUpdate_notifications]
  · intro hne
    have hstore : (checkPaymentStatus db ref (some cid) uid resp now).1
        = pollTxnUpdate db ref resp now := by
      rw [checkPaymentStatus_eq db ref (some cid) uid resp now href]
      simp [hne]
    rw [hstore]
    exact ⟨pollTxnUpdate_campaigns db ref resp now,
      pollTxnUpdate_notifications db ref resp now⟩
  · intro hcamp hnp
    by_cases hn : (normalizeYnoteStatus resp).status = PaymentStatus.SUCCESSFUL
    · have hstore : (checkPaymentStatus db ref (some cid) uid resp now).1
          = handleSuccessfulPayment (pollTxnUpdate db ref resp now) cid ref
              (normalizeYnoteStatus resp) uid now := by
        rw [checkPaymentStatus_eq db ref (some cid) uid resp now href]
        simp [hn, hcid]
      have hc2 : getDoc (pollTxnUpdate db ref resp now).campaigns cid = some camp := by
        rw [pollTxnUpdate_campaigns]
        exact hcamp
      rw [hstore, handleSuccessfulPayment_not_pending_eq _ cid ref _ uid now camp hc2 hnp]
      exact ⟨pollTxnUpdate_campaigns db ref resp now,
        pollTxnUpdate_notifications db ref resp now⟩
    · have hstore : (checkPaymentStatus db ref (some cid) uid resp now).1
          = pollTxnUpdate db ref resp now := by
        rw [checkPaymentStatus_eq db ref (some cid) uid resp now href]
        simp [hn]
      rw [hstore]
      exact ⟨pollTxnUpdate_campaigns db ref resp now,
        pollTxnUpdate_notifications db ref resp now⟩
  · intro h1 h2 h3 h4 hcamp hpend
    rw [handleCallback_success_pending db cb now ref cid txn camp h1 href h2 h3 hcid h4
      hcamp hpend]
    constructor
    · simp [getDoc_setDoc_self, callbackCampaignUpdate]
    · exact ⟨callbackSuccessNotification txn now, rfl, rfl⟩
  · intro h1 h2 hne
    by_cases hf : cb.status = some "FAILED" ∧ jsTruthy txn.campaignId = true
    · obtain ⟨hf4, hftr⟩ := hf
      obtain ⟨cid2, h3, hcid2⟩ : ∃ c, txn.campaignId = some c ∧ c ≠ "" := by
        cases hc : txn.campaignId with
        | none =>
            rw [hc] at hftr
            simp at hftr
        | some c =>
            refine ⟨c, rfl, ?_⟩
            rw [hc] at hftr
            simpa using hftr
      cases hcampx : getDoc db.campaigns cid2 with
      | none =>
          rw [handleCallback_failed_missing db cb now ref cid2 txn h1 href h2 h3 hcid2
            hf4 hcampx]
          refine ⟨fun c => rfl, fun n hn => ?_⟩
          rcases List.mem_append.mp hn with h | h
          · exact Or.inl h
          · rw [List.mem_singleton] at h
            rw [h]
            exact Or.inr rfl
      | some campx =>
          rw [handleCallback_failed_camp db cb now ref cid2 txn campx h1 href h2 h3 hcid2
            hf4 hcampx]
          refine ⟨?_, fun n hn => ?_⟩
          · intro c
            exact getDoc_map_status_setDoc db.campaigns cid2 campx
              { campx with mtnPaymentStatus := some "FAILED", updatedAt := some now }
              hcampx rfl c
          · rcases List.mem_append.mp hn with h | h
            · exact Or.inl h
            · rw [List.mem_singleton] at h
              rw [h]
              exact Or.inr rfl
    · have hS : ¬ (cb.status = some "SUCCESSFUL" ∧ jsTruthy txn.campaignId = true) :=
        fun h => hne h.1
      rw [handleCallback_txn_only db cb now ref txn h1 href h2 hS hf]
      exact ⟨fun c => rfl, fun n hn => Or.inl hn⟩
  · intro h1 h2 h3 h4 hcamp hnp
    rw [handleCallback_success_not_pending db cb now ref cid txn camp h1 href h2 h3
      hcid h4 hcamp hnp]
    exact ⟨rfl, rfl⟩
  · intro h1 h2 hstat
    have hS : ¬ (cb.status = some "SUCCESSFUL" ∧ jsTruthy txn.campaignId = true) := by
      rcases hstat with h | h <;> simp [h]
    have hF : ¬ (cb.status = some "FAILED" ∧ jsTruthy txn.campaignId = true) := by
      rcases hstat with h | h <;> simp [h]
    rw [handleCallback_txn_only db cb now ref txn h1 href h2 hS hF]
    exact ⟨rfl, rfl⟩

/-- Witness fixture: a vendor status reply `SUCCESS`. -/
def respW2 : YnoteResponse :=
  { status := some "SUCCESS", transactionStatus := none, amount := some 500,
    transactionId := none, financialTransactionId := none, externalId := none,
    reason := none, message := none, errorMessage := none }

/-- Witness fixture: a pending campaign owned by `alice`. -/
def campW2 : Campaign :=
  { userId := "alice", name := none, status := CampaignStatus.pending_payment,
    paymentMethod := none, paymentAmount := none, paidAt := none,
    mtnReferenceId := none, ynoteMessageId := none, mtnPaymentStatus := none,
    mtnTransactionId := none, updatedAt := none, updatedBy := none }

/-- Witness fixture: a store holding only that campaign. -/
def dbW2 : Store :=
  { campaigns := [("campw", campW2)], transactions := [], notifications := [] }

/-- Witness for C2 amended, at the poll entry point with vendor status
`SUCCESS`. -/
theorem C2_amended_witness :
    (getDoc (checkPaymentStatus dbW2 "refw" (some "campw") (some "bob") respW2 9).1.campaigns
        "campw").map Campaign.status = some CampaignStatus.scheduled ∧
    ∃ n : Notification,
      (checkPaymentStatus dbW2 "refw" (some "campw") (some "bob") respW2 9).1.notifications
        = dbW2.notifications ++ [n] ∧ n.type = "payment_success" :=
  (C2_amended dbW2 "refw" "campw" (some "bob") respW2
      { referenceId := none, order_id := none, status := none,
        financialTransactionId := none }
      txC2 campW2 9 (by decide) (by decide)).1 (by decide) rfl (by decide)

/-- C3: a campaign already in `scheduled` is left untouched by a
SUCCESSFUL status update through either entry point: the transition is
guarded by reading the campaign and checking `pending_payment` first,
so it happens at most once. -/
theorem C3_scheduled_idempotent (db : Store) (ref cid : String) (uid : Option String)
    (resp : YnoteResponse) (cb : MtnCallbackData) (txn : Transaction) (camp : Campaign)
    (now : Nat)
    (hcamp : getDoc db.campaigns cid = some camp)
    (hsched : camp.status = CampaignStatus.scheduled) :
    ((normalizeYnoteStatus resp).status = PaymentStatus.SUCCESSFUL →
      (checkPaymentStatus db ref (some cid) uid resp now).1.campaigns = db.campaigns ∧
      (checkPaymentStatus db ref (some cid) uid resp now).1.notifications
        = db.notifications) ∧
    (jsOr cb.referenceId cb.order_id = some ref → ref ≠ "" →
      getDoc db.transactions ref = some txn →
      txn.campaignId = some cid →
      cb.status = some "SUCCESSFUL" →
      (handleCallback db cb now).1.campaigns = db.campaigns ∧
      (handleCallback db cb now).1.notifications = db.notifications) := by
  have hnp : camp.status ≠ CampaignStatus.pending_payment := by
    rw [hsched]
    decide
  constructor
  · intro hnorm
    by_cases href : ref = ""
    · simp [checkPaymentStatus, href]
    · by_cases hcid : cid = ""
      · have hstore : (checkPaymentStatus db ref (some cid) uid resp now).1
            = pollTxnUpdate db ref resp now := by
          rw [checkPaymentStatus_eq db ref (some cid) uid resp now href]
          simp [hcid]
        rw [hstore]
        exact ⟨pollTxnUpdate_campaigns db ref resp now,
          pollTxnUpdate_notifications db ref resp now⟩
      · have hstore : (checkPaymentStatus db ref (some cid) uid resp now).1
            = handleSuccessfulPayment (pollTxnUpdate db ref resp now) cid ref
                (normalizeYnoteStatus resp) uid now := by
          rw [checkPaymentStatus_eq db ref (some cid) uid resp now href]
          simp [hnorm, hcid]
        have hc2 : getDoc (pollTxnUpdate db ref resp now).campaigns cid = some camp := by
          rw [pollTxnUpdate_campaigns]
          exact hcamp
        rw [hstore, handleSuccessfulPayment_not_pending_eq _ cid ref _ uid now camp hc2 hnp]
        exact ⟨pollTxnUpdate_campaigns db ref resp now,
          pollTxnUpdate_notifications db ref resp now⟩
  · intro h1 href h2 h3 h4
    by_cases hcid : cid = ""
    · have hS : ¬ (cb.status = some "SUCCESSFUL" ∧ jsTruthy txn.campaignId = true) := by
        simp [h3, hcid]
      have hF : ¬ (cb.status = some "FAILED" ∧ jsTruthy txn.campaignId = true) := by
        simp [h3, hcid]
      rw [handleCallback_txn_only db cb now ref txn h1 href h2 hS hF]
      exact ⟨rfl, rfl⟩
    · rw [handleCallback_success_not_pending db cb now ref cid txn camp h1 href h2 h3
        hcid h4 hcamp hnp]
      exact ⟨rfl, rfl⟩

/-- Witness fixture: a campaign already scheduled. -/
def campW3 : Campaign :=
  { userId := "alice", name := none, status := CampaignStatus.scheduled,
    paymentMethod := some "mtn", paymentAmount := some 500, paidAt := some 2,
    mtnReferenceId := some "r3", ynoteMessageId := none,
    mtnPaymentStatus := some "SUCCESSFUL", mtnTransactionId := some "t3",
    updatedAt := some 2, updatedBy := some "alice" }

/-- Witness fixture: a store holding only that campaign. -/
def dbW3 : Store :=
  { campaigns := [("c3", campW3)], transactions := [], notifications := [] }

/-- Witness fixture: a vendor status reply `SUCCESSFUL`. -/
def respW3 : YnoteResponse :=
  { status := some "SUCCESSFUL", transactionStatus := none, amount := some 500,
    transactionId := none, financialTransactionId := none, externalId := none,
    reason := none, message := none, errorMessage := none }

/-- Witness for C3, at the poll entry point on a scheduled campaign. -/
theorem C3_scheduled_idempotent_witness :
    (checkPaymentStatus dbW3 "r3" (some "c3") none respW3 4).1.campaigns
      = dbW3.campaigns ∧
    (checkPaymentStatus dbW3 "r3" (some "c3") none respW3 4).1.notifications
      = dbW3.notifications :=
  (C3_scheduled_idempotent dbW3 "r3" "c3" none respW3
      { referenceId := none, order_id := none, status := none,
        financialTransactionId := none }
      txC2 campW3 4 (by decide) rfl).1 (by decide)

/-- C4 (code bug): the route's own comment says every error other than
the two recognized cases is answered 200 to avoid vendor retries, and
the spec states the same; the catch-all branch of the code answers 500
instead.  The recognized cases behave as claimed: `introuvable` gives
404, `manquant` gives 400, and success gives 200. -/
theorem C4_catch_all_returns_500 :
    ynoteCallbackRoute (Except.error "Erreur Firestore") = 500 ∧
    ynoteCallbackRoute (Except.error "Erreur Firestore") ≠ 200 ∧
    ynoteCallbackRoute (Except.error "Transaction introuvable") = 404 ∧
    ynoteCallbackRoute (Except.error "referenceId manquant dans le callback") = 400 ∧
    ynoteCallbackRoute (Except.ok ()) = 200 := by decide

/-- Fixture: a draft campaign owned by `alice`. -/
def campC5 : Campaign :=
  { userId := "alice", name := some "Campagne B", status := CampaignStatus.draft,
    paymentMethod := none, paymentAmount := none, paidAt := none,
    mtnReferenceId := none, ynoteMessageId := none, mtnPaymentStatus := none,
    mtnTransactionId := none, updatedAt := none, updatedBy := none }

/-- Fixture: a store holding only that campaign. -/
def dbC5 : Store :=
  { campaigns := [("c1", campC5)], transactions := [], notifications := [] }

/-- Fixture: a well-formed payment request for that campaign. -/
def reqC5 : InitiatePaymentRequest :=
  { campaignId := "c1", amount := 500, phoneNumber := "677123456",
    payerMessage := none }

/-- Fixture: an uneventful gateway reply. -/
def gwC5 : WebpaymentResponse :=
  { errorCode := none, ErrorCode := none, ErrorMessage := none, body := none,
    message := none, MessageId := none, status := none }

/-- C5 counterexample: on a campaign that is NOT `pending_payment`
(here `draft`), a caller who is not the owner gets the ownership error,
not the invalid-state error — the ownership check runs before the
status check, so the claim's quantification over every caller fails. -/
theorem C5_counterexample :
    campC5.status ≠ CampaignStatus.pending_payment ∧
    (initiatePayment dbC5 reqC5 "bob" "fresh1" gwC5 0).2
      = Except.error "Cette campagne ne vous appartient pas" ∧
    (initiatePayment dbC5 reqC5 "bob" "fresh1" gwC5 0).2
      ≠ Except.error "Cette campagne n\x27est pas en attente de paiement" := by decide

/-- C5 amended: for every campaign that is not `pending_payment`,
`initiatePayment` fails and performs no writes — the store is returned
unchanged, no transaction is created, no campaign field is modified and
the gateway call result is never consulted before the failure; the
error is specifically the invalid-state error whenever the request
passes parameter validation and the caller owns the campaign. -/
theorem C5_amended (db : Store) (request : InitiatePaymentRequest)
    (userId freshReferenceId : String) (gatewayReply : WebpaymentResponse) (now : Nat)
    (camp : Campaign)
    (hcamp : getDoc db.campaigns request.campaignId = some camp)
    (hnot : camp.status ≠ CampaignStatus.pending_payment) :
    (∃ msg, initiatePayment db request userId freshReferenceId gatewayReply now
        = (db, Except.error msg)) ∧
    (camp.userId = userId → request.campaignId ≠ "" → 100 ≤ request.amount →
      request.phoneNumber ≠ "" →
      (validateMtnPhoneNumber request.phoneNumber).isValid = true →
      initiatePayment db request userId freshReferenceId gatewayReply now
        = (db, Except.error "Cette campagne n\x27est pas en attente de paiement")) := by
  constructor
  · simp only [initiatePayment, hcamp]
    by_cases hmiss : request.campaignId = "" ∨ request.amount = 0
        ∨ request.phoneNumber = ""
    · rw [if_pos hmiss]
      exact ⟨_, rfl⟩
    · rw [if_neg hmiss]
      by_cases h100 : request.amount < 100
      · rw [if_pos h100]
        exact ⟨_, rfl⟩
      · rw [if_neg h100]
        by_cases hval : (validateMtnPhoneNumber request.phoneNumber).isValid = false
        · rw [if_pos hval]
          exact ⟨_, rfl⟩
        · rw [if_neg hval]
          by_cases huser : camp.userId ≠ userId
          · rw [if_pos huser]
            exact ⟨_, rfl⟩
          · rw [if_neg huser, if_pos hnot]
            exact ⟨_, rfl⟩
  · intro huser hcid h100 hphone hval
    have hmiss : ¬ (request.campaignId = "" ∨ request.amount = 0
        ∨ request.phoneNumber = "") := by
      push_neg
      exact ⟨hcid, by omega, hphone⟩
    simp only [initiatePayment, hcamp]
    rw [if_neg hmiss, if_neg (by omega : ¬ request.amount < 100),
      if_neg (by simp [hval]), if_neg (by simp [huser]), if_pos hnot]

/-- Witness for C5 amended: the owner calling on a draft campaign with
a valid request gets exactly the invalid-state error and an unchanged
store. -/
theorem C5_amended_witness :
    initiatePayment dbC5 reqC5 "alice" "fresh1" gwC5 0
      = (dbC5, Except.error "Cette campagne n\x27est pas en attente de paiement") :=
  (C5_amended dbC5 reqC5 "alice" "fresh1" gwC5 0 campC5 (by decide) (by decide)).2
    rfl (by decide) (by decide) (by decide) (by decide)

/-- C6: a callback whose reference id has no stored transaction fails
with the not-found error, leaves the store untouched — no transaction,
campaign or notification document is created or modified — and the
webhook endpoint answers 404. -/
theorem C6_unknown_reference (db : Store) (cb : MtnCallbackData) (now : Nat) (ref : String)
    (h1 : jsOr cb.referenceId cb.order_id = some ref) (href : ref ≠ "")
    (h2 : getDoc db.transactions ref = none) :
    handleCallback db cb now = (db, Except.error "Transaction introuvable") ∧
    ynoteCallbackRoute (handleCallback db cb now).2 = 404 := by
  have heq := handleCallback_unknown_txn db cb now ref h1 href h2
  refine ⟨heq, ?_⟩
  rw [heq]
  show ynoteCallbackRoute (Except.error "Transaction introuvable") = 404
  decide

/-- Witness for C6: a `SUCCESSFUL` callback for an unknown reference on
an empty store. -/
theorem C6_unknown_reference_witness :
    handleCallback { campaigns := [], transactions := [], notifications := [] }
        { referenceId := some "nope", order_id := none, status := some "SUCCESSFUL",
          financialTransactionId := none } 1
      = ({ campaigns := [], transactions := [], notifications := [] },
         Except.error "Transaction introuvable") ∧
    ynoteCallbackRoute (handleCallback
        { campaigns := [], transactions := [], notifications := [] }
        { referenceId := some "nope", order_id := none, status := some "SUCCESSFUL",
          financialTransactionId := none } 1).2 = 404 :=
  C6_unknown_reference _ _ 1 "nope" (by decide) (by decide) (by decide)

/-- Fixture: a stored transaction not linked to any campaign. -/
def txC7 : Transaction :=
  { referenceId := "ref7", ynoteMessageId := "m7", campaignId := none,
    userId := some "alice", amount := 700, currency := "XAF",
    phoneNumber := "237677123456", status := some "PENDING", paymentMethod := "mtn",
    ynoteResponse := none, ynoteStatusResponse := none, mtnCallbackData := none,
    financialTransactionId := none, createdAt := 0, updatedAt := 0 }

/-- Fixture: the store holding only that transaction. -/
def dbC7 : Store :=
  { campaigns := [], transactions := [("ref7", txC7)], notifications := [] }

/-- Fixture: a callback carrying the raw vendor status `SUCCESS`. -/
def cbC7 : MtnCallbackData :=
  { referenceId := some "ref7", order_id := none, status := some "SUCCESS",
    financialTransactionId := some "ft7" }

/-- Fixture: the vendor status response matching that callback. -/
def respC7 : YnoteResponse :=
  { status := some "SUCCESS", transactionStatus := none, amount := some 700,
    transactionId := none, financialTransactionId := none, externalId := none,
    reason := none, message := none, errorMessage := none }

/-- C7 counterexample: on the callback path the transaction row is
updated with the RAW vendor status — here `"SUCCESS"` is stored even
though the normalized status of that vendor value is SUCCESSFUL (wire
form `"SUCCESSFUL"`), so the row is NOT updated with the latest
normalized status. -/
theorem C7_counterexample :
    (handleCallback dbC7 cbC7 3).2 = Except.ok () ∧
    (getDoc (handleCallback dbC7 cbC7 3).1.transactions "ref7").map Transaction.status
      = some (some "SUCCESS") ∧
    (normalizeYnoteStatus respC7).status = PaymentStatus.SUCCESSFUL ∧
    (normalizeYnoteStatus respC7).status.toText ≠ "SUCCESS" := by decide

/-- C7 amended: on a poll, when the transaction row exists it is
updated with the normalized status and the raw vendor response,
regardless of the campaign-transition outcome; when no row exists the
update is silently skipped.  On a callback the row is updated with the
raw callback payload and the raw (unnormalized) vendor status. -/
theorem C7_amended (db : Store) (ref : String) (cidOpt uid : Option String)
    (resp : YnoteResponse) (cb : MtnCallbackData) (txn : Transaction) (now : Nat)
    (href : ref ≠ "") :
    (getDoc db.transactions ref = some txn →
      getDoc (checkPaymentStatus db ref cidOpt uid resp now).1.transactions ref
        = some { txn with
            status := some (normalizeYnoteStatus resp).status.toText
            ynoteStatusResponse := some resp
            updatedAt := now }) ∧
    (getDoc db.transactions ref = none →
      (checkPaymentStatus db ref cidOpt uid resp now).1.transactions
        = db.transactions) ∧
    (jsOr cb.referenceId cb.order_id = some ref →
      getDoc db.transactions ref = some txn →
      getDoc (handleCallback db cb now).1.transactions ref
        = some (callbackTxnUpdate txn cb now)) := by
  refine ⟨?_, ?_, ?_⟩
  · intro h2
    rw [checkPaymentStatus_transactions db ref cidOpt uid resp now href,
      pollTxnUpdate_some db ref resp now txn h2]
    exact getDoc_setDoc_self _ _ _
  · intro h2
    rw [checkPaymentStatus_transactions db ref cidOpt uid resp now href,
      pollTxnUpdate_none db ref resp now h2]
  · intro h1 h2
    rw [handleCallback_transactions db cb now ref txn h1 href h2]
    exact getDoc_setDoc_self _ _ _

/-- Witness for C7 amended, at the poll entry point on a stored row. -/
theorem C7_amended_witness :
    getDoc (checkPaymentStatus dbC7 "ref7" none none respC7 5).1.transactions "ref7"
      = some { txC7 with
          status := some (normalizeYnoteStatus respC7).status.toText
          ynoteStatusResponse := some respC7
          updatedAt := 5 } :=
  (C7_amended dbC7 "ref7" none none respC7
      { referenceId := none, order_id := none, status := none,
        financialTransactionId := none }
      txC7 5 (by decide)).1 (by decide)

/-- C10: for a reference id with no stored transaction row, the
authenticated poll does not fail with not-found: it returns the
normalized status of the gateway reply, silently skips the
transaction-row update, and — when a campaign id is supplied and the
normalized status is SUCCESSFUL — still performs the
`pending_payment` to `scheduled` transition for an arbitrary caller
`uid`, with no hypothesis tying the caller to the transaction or the
campaign owner. -/
theorem C10_poll_unknown_reference (db : Store) (ref cid : String) (uid : Option String)
    (resp : YnoteResponse) (now : Nat) (camp : Campaign)
    (href : ref ≠ "")
    (hnone : getDoc db.transactions ref = none) :
    (checkPaymentStatus db ref (some cid) uid resp now).2
      = Except.ok
        { success := true
          status := (normalizeYnoteStatus resp).status
          amount := (normalizeYnoteStatus resp).amount.map toString
          currency := "XAF"
          financialTransactionId := (normalizeYnoteStatus resp).transactionId
          reason := (normalizeYnoteStatus resp).reason } ∧
    (checkPaymentStatus db ref (some cid) uid resp now).1.transactions
      = db.transactions ∧
    (cid ≠ "" → (normalizeYnoteStatus resp).status = PaymentStatus.SUCCESSFUL →
      getDoc db.campaigns cid = some camp →
      camp.status = CampaignStatus.pending_payment →
      (getDoc (checkPaymentStatus db ref (some cid) uid resp now).1.campaigns cid).map
        Campaign.status = some CampaignStatus.scheduled) := by
  refine ⟨?_, ?_, ?_⟩
  · rw [checkPaymentStatus_eq db ref (some cid) uid resp now href]
  · rw [checkPaymentStatus_transactions db ref (some cid) uid resp now href,
      pollTxnUpdate_none db ref resp now hnone]
  · intro hcid hnorm hcamp hpend
    have hstore : (checkPaymentStatus db ref (some cid) uid resp now).1
        = handleSuccessfulPayment (pollTxnUpdate db ref resp now) cid ref
            (normalizeYnoteStatus resp) uid now := by
      rw [checkPaymentStatus_eq db ref (some cid) uid resp now href]
      simp [hnorm, hcid]
    have hc2 : getDoc (pollTxnUpdate db ref resp now).campaigns cid = some camp := by
      rw [pollTxnUpdate_campaigns]
      exact hcamp
    rw [hstore, handleSuccessfulPayment_pending_eq _ cid ref _ uid now camp hc2 hpend]
    simp [getDoc_setDoc_self, pollCampaignUpdate]

/-- Witness fixture: a pending campaign owned by `owner`. -/
def campW10 : Campaign :=
  { userId := "owner", name := none, status := CampaignStatus.pending_payment,
    paymentMethod := none, paymentAmount := none, paidAt := none,
    mtnReferenceId := none, ynoteMessageId := none, mtnPaymentStatus := none,
    mtnTransactionId := none, updatedAt := none, updatedBy := none }

/-- Witness fixture: a store with that campaign and no transactions. -/
def dbW10 : Store :=
  { campaigns := [("c10", campW10)], transactions := [], notifications := [] }

/-- Witness fixture: a SUCCESSFUL gateway reply. -/
def respW10 : YnoteResponse :=
  { status := some "SUCCESSFUL", transactionStatus := none, amount := some 900,
    transactionId := none, financialTransactionId := none, externalId := none,
    reason := none, message := none, errorMessage := none }

/-- Witness for C10: a caller `intruder`, who does not own the
campaign, polls an unknown reference and the campaign still moves to
`scheduled`. -/
theorem C10_poll_unknown_reference_witness :
    (getDoc (checkPaymentStatus dbW10 "r10" (some "c10") (some "intruder") respW10 6).1.campaigns
        "c10").map Campaign.status = some CampaignStatus.scheduled :=
  (C10_poll_unknown_reference dbW10 "r10" "c10" (some "intruder") respW10 6 campW10
      (by decide) (by decide)).2.2 (by decide) (by decide) (by decide) rfl

end Paynote
